import Mathlib

/-!
Shallow embedding of `src/static/js/dashboard.js`.

The script registers a `DOMContentLoaded` handler that fetches `/api/stats`,
parses the body as JSON, and passes the parsed object first to
`updateActivityChart` and then to `updateResponseChart`.  Each of those
functions looks up a canvas element by id, takes its 2d context, and calls the
`Chart` constructor with a configuration object literal.

Modelling choices:
* JavaScript property reads on the parsed payload are dynamic, so the
  statistics payload `StatsData` is polymorphic in the type `α` of field
  values; the script never inspects, defaults or validates the values, and the
  embedding reflects that by being parametric in `α`.
* The configuration object passed to `new Chart(...)` is embedded as the
  structures `Dataset`, `ChartData`, `ChartOptions`, `ChartConfig`, mirroring
  the object literals of the script field by field.
* The DOM is a list of the element ids present in the hosting page.  A lookup
  of a missing id makes `getContext('2d')` throw, which the embedding renders
  as `Except.error`; the handler body has no catch, so an error in the first
  render aborts the handler before the second render.
* The observable behaviour of one page load is a trace of events `Ev`:
  entering each update function, each `Chart` constructor call with its
  configuration, and a thrown exception.
-/

/-- The parsed `/api/stats` payload as the script reads it: five properties,
with values of an arbitrary type `α` (the script performs no validation, so
nothing constrains them to numbers). -/
structure StatsData (α : Type) where
  post_count : α
  reply_count : α
  mention_count : α
  text_response_count : α
  image_response_count : α
deriving DecidableEq, Repr

/-- One element of the `datasets` array of a Chart configuration. -/
structure Dataset (α : Type) where
  label : Option String
  data : List α
  backgroundColor : List String
  borderColor : List String
  borderWidth : Nat
deriving DecidableEq, Repr

/-- The `data` member of a Chart configuration: labels plus datasets. -/
structure ChartData (α : Type) where
  labels : List String
  datasets : List (Dataset α)
deriving DecidableEq, Repr

/-- The `options` member of a Chart configuration; the script only ever sets
`scales.y.beginAtZero`. -/
structure ChartOptions where
  scalesYBeginAtZero : Option Bool
deriving DecidableEq, Repr

/-- The configuration object passed to the `Chart` constructor. -/
structure ChartConfig (α : Type) where
  type : String
  data : ChartData α
  options : Option ChartOptions
deriving DecidableEq, Repr

/-- The configuration object literal that `updateActivityChart` passes to
`new Chart(ctx, ...)` in `dashboard.js`, field by field. -/
def activityChartConfig {α : Type} (data : StatsData α) : ChartConfig α :=
  { type := "bar"
    data :=
      { labels := ["Posts", "Replies", "Mentions"]
        datasets :=
          [{ label := some "Count"
             data :=
               [data.post_count,
                data.reply_count,
                data.mention_count]
             backgroundColor :=
               ["rgba(75, 192, 192, 0.2)",
                "rgba(54, 162, 235, 0.2)",
                "rgba(153, 102, 255, 0.2)"]
             borderColor :=
               ["rgba(75, 192, 192, 1)",
                "rgba(54, 162, 235, 1)",
                "rgba(153, 102, 255, 1)"]
             borderWidth := 1 }] }
    options := some { scalesYBeginAtZero := some true } }

/-- The configuration object literal that `updateResponseChart` passes to
`new Chart(ctx, ...)` in `dashboard.js`, field by field (no `label`, no
`options` member in the source). -/
def responseChartConfig {α : Type} (data : StatsData α) : ChartConfig α :=
  { type := "pie"
    data :=
      { labels := ["Text Responses", "Image Responses"]
        datasets :=
          [{ label := none
             data :=
               [data.text_response_count,
                data.image_response_count]
             backgroundColor :=
               ["rgba(255, 99, 132, 0.2)",
                "rgba(255, 206, 86, 0.2)"]
             borderColor :=
               ["rgba(255, 99, 132, 1)",
                "rgba(255, 206, 86, 1)"]
             borderWidth := 1 }] }
    options := none }

/-- `updateActivityChart` as run against a DOM (the list of element ids the
hosting page provides): `document.getElementById('activityChart')` yields the
element when present, otherwise `null`, on which `.getContext('2d')` throws;
on success the `Chart` constructor receives `activityChartConfig data`. -/
def updateActivityChart {α : Type} (dom : List String) (data : StatsData α) :
    Except String (ChartConfig α) :=
  if "activityChart" ∈ dom then Except.ok (activityChartConfig data)
  else Except.error "TypeError: cannot read getContext of null"

/-- `updateResponseChart` as run against a DOM, analogous to
`updateActivityChart` but looking up `responseChart`. -/
def updateResponseChart {α : Type} (dom : List String) (data : StatsData α) :
    Except String (ChartConfig α) :=
  if "responseChart" ∈ dom then Except.ok (responseChartConfig data)
  else Except.error "TypeError: cannot read getContext of null"

/-- Observable events of one page load: entering `updateActivityChart`,
entering `updateResponseChart`, a `Chart` constructor call with its
configuration, and an uncaught thrown exception. -/
inductive Ev (α : Type) where
  | callActivity : Ev α
  | callResponse : Ev α
  | newChart : ChartConfig α → Ev α
  | threw : Ev α
deriving DecidableEq, Repr

/-- `true` exactly on the event of entering `updateActivityChart`. -/
def Ev.isCallActivity {α : Type} : Ev α → Bool
  | .callActivity => true
  | _ => false

/-- `true` exactly on the event of entering `updateResponseChart`. -/
def Ev.isCallResponse {α : Type} : Ev α → Bool
  | .callResponse => true
  | _ => false

/-- `true` exactly on a `Chart` constructor call event. -/
def Ev.isNewChart {α : Type} : Ev α → Bool
  | .newChart _ => true
  | _ => false

/-- Number of events in a trace satisfying `p`. -/
def countEv {α : Type} (p : Ev α → Bool) (t : List (Ev α)) : Nat :=
  (t.filter p).length

/-- The `DOMContentLoaded` handler of `dashboard.js` as a trace of events.
`fetched` is `some d` when the fetch resolved and `response.json()` parsed to
`d`, and `none` when the fetch rejected or the body failed to parse (then the
second `.then` callback never runs and no rejection handler exists, so nothing
happens).  On `some d` the handler calls `updateActivityChart(data)` and then
`updateResponseChart(data)`; the handler body has no `try`/`catch`, so a throw
in the first call propagates and the second call never happens. -/
def runHandler {α : Type} (dom : List String) (fetched : Option (StatsData α)) :
    List (Ev α) :=
  match fetched with
  | none => []
  | some d =>
    Ev.callActivity ::
      match updateActivityChart dom d with
      | .error _ => [Ev.threw]
      | .ok c1 =>
        Ev.newChart c1 :: Ev.callResponse ::
          match updateResponseChart dom d with
          | .error _ => [Ev.threw]
          | .ok c2 => [Ev.newChart c2]

/-- One invocation of `updateActivityChart` on a snapshot, together with the
state of the snapshot after the call: the function body only reads
`data.post_count`, `data.reply_count`, `data.mention_count` and assigns to
nothing, so the snapshot after the call is the snapshot passed in. -/
def updateActivityChartCall {α : Type} (data : StatsData α) :
    ChartConfig α × StatsData α :=
  (activityChartConfig data, data)

/-- One invocation of `updateResponseChart` on a snapshot, together with the
state of the snapshot after the call (the body has no assignments). -/
def updateResponseChartCall {α : Type} (data : StatsData α) :
    ChartConfig α × StatsData α :=
  (responseChartConfig data, data)

/-- A JavaScript runtime value, used to exercise the pass-through behaviour on
non-numeric and absent (`undefined`) payload fields. -/
inductive JSValue where
  | num : Int → JSValue
  | str : String → JSValue
  | nullv : JSValue
  | undef : JSValue
deriving DecidableEq, Repr

/-- Claim C1: for every payload, `updateActivityChart` passes the `Chart`
constructor type `'bar'`, labels exactly `["Posts","Replies","Mentions"]`, and
dataset data exactly `[post_count, reply_count, mention_count]`; in particular
with counts 5, 3, 1 the data array is `[5,3,1]`. -/
theorem activity_chart_bar_labels_data :
    ∀ (α : Type) (d : StatsData α),
      (activityChartConfig d).type = "bar" ∧
      (activityChartConfig d).data.labels = ["Posts", "Replies", "Mentions"] ∧
      (activityChartConfig d).data.datasets.map Dataset.data =
        [[d.post_count, d.reply_count, d.mention_count]] ∧
      (activityChartConfig (⟨5, 3, 1, 0, 0⟩ : StatsData Nat)).data.datasets.map
          Dataset.data = [[5, 3, 1]] :=
  fun _ _ => ⟨rfl, rfl, rfl, rfl⟩

/-- Claim C2: for every payload, `updateResponseChart` passes the `Chart`
constructor type `'pie'`, labels exactly `["Text Responses","Image Responses"]`,
and dataset data exactly `[text_response_count, image_response_count]`; in
particular with counts 7, 2 the data array is `[7,2]`. -/
theorem response_chart_pie_labels_data :
    ∀ (α : Type) (d : StatsData α),
      (responseChartConfig d).type = "pie" ∧
      (responseChartConfig d).data.labels = ["Text Responses", "Image Responses"] ∧
      (responseChartConfig d).data.datasets.map Dataset.data =
        [[d.text_response_count, d.image_response_count]] ∧
      (responseChartConfig (⟨0, 0, 0, 7, 2⟩ : StatsData Nat)).data.datasets.map
          Dataset.data = [[7, 2]] :=
  fun _ _ => ⟨rfl, rfl, rfl, rfl⟩

/-- Claim C3: when the fetch rejects or the body fails to parse as JSON, the
handler trace is empty regardless of the DOM — neither update function runs,
no `Chart` constructor call occurs and no error branch observes the failure. -/
theorem fetch_failure_renders_nothing :
    ∀ (α : Type) (dom : List String),
      runHandler (α := α) dom none = [] :=
  fun _ _ => rfl

/-- Claim C4: on a successful fetch-and-parse, with both canvas elements
present, the handler trace is exactly: enter `updateActivityChart`, construct
the activity chart, enter `updateResponseChart`, construct the response chart;
each update function is entered exactly once, the activity one first. -/
theorem success_render_sequence (α : Type) (dom : List String) (d : StatsData α)
    (hA : "activityChart" ∈ dom) (hR : "responseChart" ∈ dom) :
    runHandler dom (some d) =
      [Ev.callActivity, Ev.newChart (activityChartConfig d),
       Ev.callResponse, Ev.newChart (responseChartConfig d)] ∧
    countEv Ev.isCallActivity (runHandler dom (some d)) = 1 ∧
    countEv Ev.isCallResponse (runHandler dom (some d)) = 1 := by
  have h : runHandler dom (some d) =
      [Ev.callActivity, Ev.newChart (activityChartConfig d),
       Ev.callResponse, Ev.newChart (responseChartConfig d)] := by
    simp only [runHandler, updateActivityChart, updateResponseChart,
      if_pos hA, if_pos hR]
  exact ⟨h, by rw [h]; rfl, by rw [h]; rfl⟩

/-- Witness for C4 at the concrete DOM `["activityChart","responseChart"]` and
the payload with counts 5, 3, 1, 7, 2. -/
theorem success_render_sequence_witness :
    runHandler ["activityChart", "responseChart"]
        (some (⟨5, 3, 1, 7, 2⟩ : StatsData Nat)) =
      [Ev.callActivity, Ev.newChart (activityChartConfig ⟨5, 3, 1, 7, 2⟩),
       Ev.callResponse, Ev.newChart (responseChartConfig ⟨5, 3, 1, 7, 2⟩)] ∧
    countEv Ev.isCallActivity (runHandler ["activityChart", "responseChart"]
        (some (⟨5, 3, 1, 7, 2⟩ : StatsData Nat))) = 1 ∧
    countEv Ev.isCallResponse (runHandler ["activityChart", "responseChart"]
        (some (⟨5, 3, 1, 7, 2⟩ : StatsData Nat))) = 1 :=
  success_render_sequence Nat ["activityChart", "responseChart"] ⟨5, 3, 1, 7, 2⟩
    (by decide) (by decide)

/-- Claim C5: rendering is idempotent and deterministic: a call leaves the
snapshot unchanged, and a second call on the resulting snapshot produces a
configuration (labels and dataset arrays included) equal to the first —
for both charts. -/
theorem render_idempotent_no_mutation :
    ∀ (α : Type) (d : StatsData α),
      (updateActivityChartCall d).2 = d ∧
      (updateActivityChartCall ((updateActivityChartCall d).2)).1 =
        (updateActivityChartCall d).1 ∧
      (updateResponseChartCall d).2 = d ∧
      (updateResponseChartCall ((updateResponseChartCall d).2)).1 =
        (updateResponseChartCall d).1 :=
  fun _ _ => ⟨rfl, rfl, rfl, rfl⟩

/-- Claim C6: the all-zero snapshot still renders both charts: the activity
chart with data `[0,0,0]`, the response chart with data `[0,0]`, and the page
load trace contains both `Chart` constructor calls. -/
theorem all_zero_snapshot_renders_both :
    (activityChartConfig (⟨0, 0, 0, 0, 0⟩ : StatsData Nat)).data.datasets.map
        Dataset.data = [[0, 0, 0]] ∧
    (responseChartConfig (⟨0, 0, 0, 0, 0⟩ : StatsData Nat)).data.datasets.map
        Dataset.data = [[0, 0]] ∧
    countEv Ev.isNewChart (runHandler ["activityChart", "responseChart"]
        (some (⟨0, 0, 0, 0, 0⟩ : StatsData Nat))) = 2 ∧
    runHandler ["activityChart", "responseChart"]
        (some (⟨0, 0, 0, 0, 0⟩ : StatsData Nat)) =
      [Ev.callActivity, Ev.newChart (activityChartConfig ⟨0, 0, 0, 0, 0⟩),
       Ev.callResponse, Ev.newChart (responseChartConfig ⟨0, 0, 0, 0, 0⟩)] :=
  ⟨rfl, rfl, by decide, by decide⟩

/-- Claim C7: for every payload the activity bar chart sets
`scales.y.beginAtZero` to `true`, and its single dataset carries three
pairwise-distinct background colors and three pairwise-distinct border
colors, one per category. -/
theorem activity_chart_options_and_palette :
    ∀ (α : Type) (d : StatsData α),
      (activityChartConfig d).options =
        some { scalesYBeginAtZero := some true } ∧
      (activityChartConfig d).data.datasets.map Dataset.backgroundColor =
        [["rgba(75, 192, 192, 0.2)", "rgba(54, 162, 235, 0.2)",
          "rgba(153, 102, 255, 0.2)"]] ∧
      (activityChartConfig d).data.datasets.map Dataset.borderColor =
        [["rgba(75, 192, 192, 1)", "rgba(54, 162, 235, 1)",
          "rgba(153, 102, 255, 1)"]] ∧
      List.Nodup ["rgba(75, 192, 192, 0.2)", "rgba(54, 162, 235, 0.2)",
        "rgba(153, 102, 255, 0.2)"] ∧
      List.Nodup ["rgba(75, 192, 192, 1)", "rgba(54, 162, 235, 1)",
        "rgba(153, 102, 255, 1)"] :=
  fun _ _ => ⟨rfl, rfl, rfl, by decide, by decide⟩

/-- Claim C8: no defaulting, no validation: for values of any type `α`
(numbers, strings, `null`, `undefined` alike) the five payload fields are
passed to the chart configurations exactly as received; in particular a
payload of raw JavaScript values with a negative number, a string and
`undefined` fields flows through unchanged. -/
theorem payload_passed_through_unchecked :
    ∀ (α : Type) (d : StatsData α),
      (activityChartConfig d).data.datasets.map Dataset.data =
        [[d.post_count, d.reply_count, d.mention_count]] ∧
      (responseChartConfig d).data.datasets.map Dataset.data =
        [[d.text_response_count, d.image_response_count]] ∧
      (activityChartConfig (⟨JSValue.num (-4), JSValue.str "oops",
          JSValue.undef, JSValue.nullv, JSValue.undef⟩ :
            StatsData JSValue)).data.datasets.map Dataset.data =
        [[JSValue.num (-4), JSValue.str "oops", JSValue.undef]] ∧
      (responseChartConfig (⟨JSValue.num (-4), JSValue.str "oops",
          JSValue.undef, JSValue.nullv, JSValue.undef⟩ :
            StatsData JSValue)).data.datasets.map Dataset.data =
        [[JSValue.nullv, JSValue.undef]] :=
  fun _ _ => ⟨rfl, rfl, rfl, rfl⟩

/-- Claim C9: noninterference between the two charts: the response chart
configuration depends only on `text_response_count` and
`image_response_count`, and the activity chart configuration depends only on
`post_count`, `reply_count` and `mention_count`. -/
theorem chart_noninterference (α : Type) (d d' : StatsData α) :
    (d.text_response_count = d'.text_response_count →
      d.image_response_count = d'.image_response_count →
      responseChartConfig d = responseChartConfig d') ∧
    (d.post_count = d'.post_count → d.reply_count = d'.reply_count →
      d.mention_count = d'.mention_count →
      activityChartConfig d = activityChartConfig d') := by
  constructor
  · intro ht hi
    unfold responseChartConfig
    rw [ht, hi]
  · intro hp hr hm
    unfold activityChartConfig
    rw [hp, hr, hm]

/-- Witness for C9: two payloads differing only in the activity fields give
the same response chart, and two payloads differing only in the response
fields give the same activity chart. -/
theorem chart_noninterference_witness :
    responseChartConfig (⟨1, 2, 3, 7, 2⟩ : StatsData Nat) =
      responseChartConfig ⟨9, 9, 9, 7, 2⟩ ∧
    activityChartConfig (⟨5, 3, 1, 0, 0⟩ : StatsData Nat) =
      activityChartConfig ⟨5, 3, 1, 8, 8⟩ :=
  ⟨(chart_noninterference Nat ⟨1, 2, 3, 7, 2⟩ ⟨9, 9, 9, 7, 2⟩).1 rfl rfl,
   (chart_noninterference Nat ⟨5, 3, 1, 0, 0⟩ ⟨5, 3, 1, 8, 8⟩).2 rfl rfl rfl⟩

/-- Claim C10: if the `activityChart` canvas is absent, `updateActivityChart`
throws and the uncaught exception aborts the handler: `updateResponseChart` is
never entered and no `Chart` is constructed, even when the `responseChart`
canvas exists. -/
theorem activity_throw_blocks_response (α : Type) (dom : List String)
    (d : StatsData α) (hA : "activityChart" ∉ dom) :
    runHandler dom (some d) = [Ev.callActivity, Ev.threw] ∧
    countEv Ev.isCallResponse (runHandler dom (some d)) = 0 ∧
    countEv Ev.isNewChart (runHandler dom (some d)) = 0 := by
  have h : runHandler dom (some d) = [Ev.callActivity, Ev.threw] := by
    simp only [runHandler, updateActivityChart, if_neg hA]
  exact ⟨h, by rw [h]; rfl, by rw [h]; rfl⟩

/-- Witness for C10: a DOM that holds only the `responseChart` canvas still
gets no response chart entry and no constructor call. -/
theorem activity_throw_blocks_response_witness :
    ("responseChart" ∈ ["responseChart"]) ∧
    runHandler ["responseChart"] (some (⟨5, 3, 1, 7, 2⟩ : StatsData Nat)) =
      [Ev.callActivity, Ev.threw] ∧
    countEv Ev.isCallResponse (runHandler ["responseChart"]
      (some (⟨5, 3, 1, 7, 2⟩ : StatsData Nat))) = 0 ∧
    countEv Ev.isNewChart (runHandler ["responseChart"]
      (some (⟨5, 3, 1, 7, 2⟩ : StatsData Nat))) = 0 :=
  ⟨by decide,
   activity_throw_blocks_response Nat ["responseChart"] ⟨5, 3, 1, 7, 2⟩
     (by decide)⟩
